import Mathlib

/-!
Verification of the OutreachPass pass-issuance pipeline.

This file gives a shallow embedding, in Lean, of the pipeline code:

* the data model (`Attendee`, `Card`, `QRCode`, `PassGenerationJob`, …)
  from `backend/app/models/database.py`;
* `CardService.create_card_for_attendee` from
  `backend/app/services/card_service.py`, with the external effects
  (S3 upload, the two wallet builders, the email provider) supplied as
  environment outcomes, since the service's own `try/except` structure
  around those calls is the code under verification;
* the polling worker `process_job` / `get_pending_jobs` from
  `backend/workers/pass_generation_worker.py`;
* the SQS worker `process_pass_generation_job` from
  `lambda-worker-build/worker.py`;
* `AppleWalletPassGenerator.create_event_pass` from
  `backend/app/utils/apple_wallet.py`, including its module-level name
  environment (the names `Pass`, `Barcode`, `BarcodeFormat` are free);
* `GoogleWalletPassGenerator.generate_save_url` from
  `backend/app/utils/google_wallet.py`;
* the email body construction of `EmailClient.send_pass_email` from
  `backend/app/utils/email.py`.

Timestamps are modelled as `Nat`, UUIDs as `Nat` identifiers, byte
strings abstractly.  Python `Optional[str]` becomes `Option String` and
Python truthiness of strings/options is made explicit.
-/

set_option linter.unusedVariables false
set_option maxRecDepth 100000

namespace OutreachPass

/-! ## Python value helpers -/

/-- Python truthiness of an `Optional[str]`: `None` and `""` are falsy. -/
def pyTruthy : Option String → Bool
  | none => false
  | some s => s ≠ ""

/-- Python `x or default` for an `Optional[str]` - used as
`attendee.first_name or ''` and `attendee.email or "Attendee"`. -/
def pyOr (x : Option String) (default : String) : String :=
  match x with
  | none => default
  | some s => if s = "" then default else s

/-- Python `str.strip()`: remove leading and trailing whitespace. -/
def pyStrip (s : String) : String :=
  String.mk (((s.data.dropWhile Char.isWhitespace).reverse.dropWhile
    Char.isWhitespace).reverse)

/-! ## Data model (`backend/app/models/database.py`) -/

/-- `Attendee` row: identity fields plus the nullable back-reference
`card_id` to the issued card. -/
structure Attendee where
  attendee_id : Nat
  tenant_id : Nat
  event_id : Option Nat
  first_name : Option String
  last_name : Option String
  email : Option String
  phone : Option String
  org_name : Option String
  title : Option String
  linkedin_url : Option String
  card_id : Option Nat
deriving DecidableEq, Repr

/-- `Event` row (the fields the pipeline reads). -/
structure Event where
  event_id : Nat
  name : String
  brand_id : Option Nat
  starts_at : Nat
deriving DecidableEq, Repr

/-- `Brand` row (the fields the pipeline reads). -/
structure Brand where
  brand_id : Nat
  display_name : String
deriving DecidableEq, Repr

/-- `Card` row as created by `CardService.create_card_for_attendee`. -/
structure Card where
  card_id : Nat
  tenant_id : Nat
  owner_attendee_id : Nat
  display_name : String
  email : Option String
  phone : Option String
  org_name : Option String
  title : Option String
  links_json : List (String × String)
  is_personal : Bool
deriving DecidableEq, Repr

/-- `QRCode` row: one per card, storing the target URL and the S3 key of
the rendered image. -/
structure QRCode where
  tenant_id : Nat
  event_id : Option Nat
  card_id : Nat
  url : String
  s3_key_png : String
deriving DecidableEq, Repr

/-- Job status strings used by both workers. -/
inductive JobStatus
  | pending
  | processing
  | completed
  | failed
deriving DecidableEq, Repr

/-- `PassGenerationJob` row. -/
structure Job where
  job_id : Nat
  attendee_id : Nat
  tenant_id : Nat
  status : JobStatus
  card_id : Option Nat
  qr_url : Option String
  error_message : Option String
  retry_count : Nat
  max_retries : Nat
  created_at : Nat
  started_at : Option Nat
  completed_at : Option Nat
deriving DecidableEq, Repr

/-- `WalletPass` schema object (`type` is `"apple"` or `"google"`,
`url` the locator, `s3_key` set only for stored archives). -/
structure WalletPass where
  type : String
  url : String
  s3_key : Option String
deriving DecidableEq, Repr

/-- The relational store, restricted to the tables the pipeline touches,
plus an append-only analytics log and a fresh-id counter for cards. -/
structure DB where
  attendees : List Attendee
  events : List Event
  brands : List Brand
  cards : List Card
  qrcodes : List QRCode
  jobs : List Job
  analytics : List String
  next_card_id : Nat
deriving DecidableEq, Repr

def DB.findAttendee (db : DB) (aid : Nat) : Option Attendee :=
  db.attendees.find? (fun a => a.attendee_id == aid)

def DB.findEvent (db : DB) (eid : Nat) : Option Event :=
  db.events.find? (fun e => e.event_id == eid)

def DB.findBrand (db : DB) (bid : Nat) : Option Brand :=
  db.brands.find? (fun b => b.brand_id == bid)

def DB.findJob (db : DB) (jid : Nat) : Option Job :=
  db.jobs.find? (fun j => j.job_id == jid)

/-- Point update of one attendee row (SQLAlchemy object mutation). -/
def DB.updateAttendee (db : DB) (aid : Nat) (f : Attendee → Attendee) : DB :=
  { db with attendees := db.attendees.map (fun a => if a.attendee_id == aid then f a else a) }

/-- Point update of one job row (SQLAlchemy object mutation). -/
def DB.updateJob (db : DB) (jid : Nat) (f : Job → Job) : DB :=
  { db with jobs := db.jobs.map (fun j => if j.job_id == jid then f j else j) }

/-! ## Card & QR issuer (`CardService.create_card_for_attendee`) -/

/-- Outcome of a call into an external collaborator: the call either
raised an exception or returned a value. -/
inductive Outcome (α : Type)
  | raises
  | val (a : α)
deriving DecidableEq, Repr

/-- Environment for one run of `create_card_for_attendee`: settings
flags and the outcomes of the stage calls whose failures the service
catches (wallet builders, email send including the presign call). -/
structure CreateEnv where
  apple_wallet_enabled : Bool
  google_wallet_enabled : Bool
  s3_upload_ok : Bool
  apple_stage : Outcome (Option WalletPass)
  google_stage : Outcome (Option WalletPass)
  email_stage : Outcome Bool
deriving DecidableEq, Repr

/-- Errors `create_card_for_attendee` can raise to its caller. -/
inductive CardErr
  | attendeeNotFound
  | s3Upload
deriving DecidableEq, Repr

def CardErr.message : CardErr → String
  | .attendeeNotFound => "Attendee not found"
  | .s3Upload => "S3 upload failed"

/-- `PassIssuanceResponse` schema object returned on success. -/
structure PassIssuanceResponse where
  card_id : Nat
  qr_url : String
  qr_s3_key : String
  wallet_passes : List WalletPass
deriving DecidableEq, Repr

/-- Analytics rows appended by the email stage of
`create_card_for_attendee` (lines 191-292): `email_sent` / `email_failed`
after a returned boolean, `email_error` when the send raised; nothing
when the attendee has no (truthy) email or there is no event. -/
def emailStageAnalytics (email : Option String) (event : Option Event)
    (o : Outcome Bool) : List String :=
  if pyTruthy email ∧ event.isSome then
    match o with
    | .raises => ["email_error"]
    | .val true => ["email_sent"]
    | .val false => ["email_failed"]
  else []

/-- `BRAND_DOMAINS.get(brand_key, BRAND_DOMAINS["OUTREACHPASS"])` from
`backend/app/core/config.py`. -/
def brandDomain (brand_key : String) : String :=
  if brand_key = "OUTREACHPASS" then "https://outreachpass.base2ml.com"
  else if brand_key = "GOVSAFE" then "https://govsafe.base2ml.com"
  else if brand_key = "CAMPUSCARD" then "https://campuscard.base2ml.com"
  else "https://outreachpass.base2ml.com"

/-- Display-name derivation from `card_service.py` lines 63-65:
`f"{first or ''} {last or ''}".strip()` falling back to
`attendee.email or "Attendee"`. -/
def displayNameOf (first_name last_name email : Option String) : String :=
  let name := pyStrip (pyOr first_name "" ++ " " ++ pyOr last_name "")
  if name = "" then pyOr email "Attendee" else name

/-- Links map from `card_service.py` lines 67-69. -/
def linksJsonOf (linkedin_url : Option String) : List (String × String) :=
  match linkedin_url with
  | none => []
  | some u => [("linkedin", u)]

/-- `CardService.create_card_for_attendee`.  Creates a Card and a QRCode
for the attendee unconditionally (there is no check of
`attendee.card_id`), sets the attendee's card reference, uploads the QR
image, and then runs the wallet and email stages, each inside
`try/except` so that their failures never propagate. -/
def create_card_for_attendee (env : CreateEnv) (db : DB) (attendee_id : Nat)
    (brand_key : String := "OUTREACHPASS") :
    Except CardErr (DB × PassIssuanceResponse) :=
  match db.findAttendee attendee_id with
  | none => .error .attendeeNotFound
  | some attendee =>
    let event := attendee.event_id.bind db.findEvent
    let brand := (event.bind (fun e => e.brand_id)).bind db.findBrand
    let display_name := displayNameOf attendee.first_name attendee.last_name attendee.email
    let card : Card :=
      { card_id := db.next_card_id
        tenant_id := attendee.tenant_id
        owner_attendee_id := attendee.attendee_id
        display_name := display_name
        email := attendee.email
        phone := attendee.phone
        org_name := attendee.org_name
        title := attendee.title
        links_json := linksJsonOf attendee.linkedin_url
        is_personal := false }
    let db₁ : DB := { db with cards := db.cards ++ [card], next_card_id := db.next_card_id + 1 }
    let db₂ := db₁.updateAttendee attendee.attendee_id (fun a => { a with card_id := some card.card_id })
    let base_domain := brandDomain brand_key
    let card_url := base_domain ++ "/c/" ++ toString card.card_id
    let s3_key := "qr/" ++ toString attendee.tenant_id ++ "/" ++ toString card.card_id ++ ".png"
    if ¬ env.s3_upload_ok then .error .s3Upload
    else
      let qr : QRCode :=
        { tenant_id := attendee.tenant_id
          event_id := attendee.event_id
          card_id := card.card_id
          url := card_url
          s3_key_png := s3_key }
      let db₃ : DB := { db₂ with qrcodes := db₂.qrcodes ++ [qr] }
      let db₄ : DB := { db₃ with analytics := db₃.analytics ++ ["qr_generated"] }
      let applePasses : List WalletPass :=
        if env.apple_wallet_enabled ∧ event.isSome then
          match env.apple_stage with
          | .raises => []
          | .val none => []
          | .val (some p) => [p]
        else []
      let googlePasses : List WalletPass :=
        if env.google_wallet_enabled ∧ event.isSome then
          match env.google_stage with
          | .raises => []
          | .val none => []
          | .val (some p) => [p]
        else []
      let wallet_passes := applePasses ++ googlePasses
      let db₅ : DB :=
        { db₄ with analytics :=
            db₄.analytics ++ emailStageAnalytics attendee.email event env.email_stage }
      .ok (db₅,
        { card_id := card.card_id
          qr_url := card_url
          qr_s3_key := s3_key
          wallet_passes := wallet_passes })

/-! ## Polling worker (`backend/workers/pass_generation_worker.py`) -/

/-- Result of `process_job`: the updated job row, the database after the
run, and the boolean the function returns. -/
structure ProcessJobResult where
  job : Job
  db : DB
  ok : Bool
deriving DecidableEq, Repr

/-- `process_job` from `backend/workers/pass_generation_worker.py`.
Flips the job to `processing`, looks up the attendee (raising
`ValueError` when absent), calls `create_card_for_attendee`, and on any
exception increments `retry_count` and either re-queues the job as
`pending` (clearing `started_at`) or marks it permanently `failed` once
`retry_count >= max_retries`.  There is no idempotency check of
`attendee.card_id` on this path. -/
def process_job (env : CreateEnv) (job : Job) (db : DB) (now : Nat) : ProcessJobResult :=
  let job₁ : Job := { job with status := .processing, started_at := some now }
  let fail (msg : String) : ProcessJobResult :=
    let rc := job₁.retry_count + 1
    if rc ≥ job₁.max_retries then
      { job := { job₁ with retry_count := rc, error_message := some msg,
                           status := .failed, completed_at := some now }
        db := db, ok := false }
    else
      { job := { job₁ with retry_count := rc, error_message := some msg,
                           status := .pending, started_at := none }
        db := db, ok := false }
  match db.findAttendee job.attendee_id with
  | none => fail ("Attendee " ++ toString job.attendee_id ++ " not found")
  | some _ =>
    match create_card_for_attendee env db job.attendee_id with
    | .error e => fail e.message
    | .ok (db', resp) =>
      { job := { job₁ with status := .completed, card_id := some resp.card_id,
                           qr_url := some resp.qr_url, completed_at := some now,
                           error_message := none }
        db := db', ok := true }

/-- `get_pending_jobs`: the jobs with status `pending`, ordered by
`created_at`, limited to `limit` (default 20). -/
def get_pending_jobs (db : DB) (limit : Nat := 20) : List Job :=
  (((db.jobs.filter (fun j => j.status == .pending)).mergeSort
      (fun a b => a.created_at ≤ b.created_at)).take limit)

/-! ## SQS worker (`lambda-worker-build/worker.py`) -/

/-- The `{"status": ..., "message": ...}` dictionary returned by
`process_pass_generation_job`. -/
inductive LambdaOutcome
  | success (message : String)
  | error (message : String)
deriving DecidableEq, Repr

/-- `process_pass_generation_job` from `lambda-worker-build/worker.py`.
Early-returns when the job is already `completed`; flips the job to
`processing`; fails the job when the attendee is missing; marks the job
`completed` immediately with the existing card id when
`attendee.card_id` is set (the idempotency gate); otherwise calls
`create_card_for_attendee`, and on an exception marks the job `failed`
directly - it never touches `retry_count`. -/
def process_pass_generation_job (env : CreateEnv) (db : DB) (job_id : Nat) :
    DB × LambdaOutcome :=
  match db.findJob job_id with
  | none => (db, .error "Job not found")
  | some job =>
    if job.status = .completed then (db, .success "Job already completed")
    else
      let db₁ := db.updateJob job_id
        (fun j => { j with status := .processing, started_at := some j.created_at })
      match db₁.findAttendee job.attendee_id with
      | none =>
        (db₁.updateJob job_id
          (fun j => { j with status := .failed, error_message := some "Attendee not found" }),
         .error "Attendee not found")
      | some attendee =>
        match attendee.card_id with
        | some cid =>
          (db₁.updateJob job_id
            (fun j => { j with status := .completed, card_id := some cid,
                               completed_at := some j.created_at }),
           .success "Pass already exists")
        | none =>
          match create_card_for_attendee env db₁ job.attendee_id with
          | .ok (db₂, resp) =>
            (db₂.updateJob job_id
              (fun j => { j with status := .completed, card_id := some resp.card_id,
                                 qr_url := some resp.qr_url,
                                 completed_at := some j.created_at }),
             .success "Pass generated successfully")
          | .error e =>
            (db₁.updateJob job_id
              (fun j => { j with status := .failed, error_message := some e.message }),
             .error e.message)

/-! ## Apple pass builder (`backend/app/utils/apple_wallet.py`) -/

/-- The Python exceptions relevant to the Apple builder. -/
inductive ApplePassErr
  | nameError (n : String)
  | notModelled
deriving DecidableEq, Repr

/-- `AppleWalletPassGenerator` constructor state. -/
structure AppleWalletPassGenerator where
  team_id : String
  pass_type_id : String
  organization_name : String
  cert_path : Option String
  key_path : Option String
  wwdr_cert_path : Option String
deriving DecidableEq, Repr

/-- The names bound at module level in `apple_wallet.py`: its imports
(lines 25-35) and its own definitions.  Neither `Pass` nor `Barcode`
nor `BarcodeFormat` is among them. -/
def appleWalletModuleNames : List String :=
  ["logging", "json", "hashlib", "zipfile", "io", "os", "subprocess", "tempfile",
   "Optional", "Dict", "Any", "datetime", "Path", "logger",
   "AppleWalletPassGenerator", "apple_wallet_generator",
   "initialize_apple_wallet", "get_apple_wallet_generator"]

/-- Python global-name resolution inside `apple_wallet.py`: a name not
bound at module (or builtin-relevant) level raises `NameError`. -/
def resolveAppleGlobal (n : String) : Except ApplePassErr Unit :=
  if appleWalletModuleNames.contains n then .ok () else .error (.nameError n)

/-- `AppleWalletPassGenerator.create_event_pass`.  Its first statement
evaluates the free name `Pass` (line 115); the enclosing `try/except`
logs and re-raises, so the exception escapes to the caller.  The
continuation after a successful resolution of `Pass` (construction of
the descriptor, signing or `_create_unsigned_pass`) is not modelled
further, because the match on `resolveAppleGlobal "Pass"` never reaches
it.  Image arguments and colors are omitted: they are not consulted
before the failing name lookup. -/
def create_event_pass (g : AppleWalletPassGenerator)
    (serial_number attendee_name event_name : String) (event_date : Nat)
    (qr_code_url : String)
    (additional_fields : List (String × String × String)) :
    Except ApplePassErr (List UInt8) :=
  match resolveAppleGlobal "Pass" with
  | .error e => .error e
  | .ok _ => .error .notModelled

/-- `CardService._generate_apple_wallet_pass`.  Returns `none` when the
team id or pass type id is not configured (Python truthiness); otherwise
builds a generator and calls `create_event_pass` inside the enclosing
`try/except`, returning `none` on any exception (including failures of
`fetch_brand_images` or of the S3 upload, supplied as environment
flags); on success it would upload the archive and return an `apple`
`WalletPass` with a stable download URL. -/
def generate_apple_wallet_pass
    (team_id pass_type_id : Option String) (organization_name : String)
    (cert_path key_path wwdr_cert_path : Option String)
    (fetch_images_raises : Bool) (s3_upload_ok : Bool)
    (card_id : Nat) (tenant_id : Nat)
    (attendee_display_name event_name : String) (event_date : Nat)
    (card_url base_domain : String)
    (additional_fields : List (String × String × String)) :
    Option WalletPass :=
  if ¬ pyTruthy team_id ∨ ¬ pyTruthy pass_type_id then none
  else if fetch_images_raises then none
  else
    let generator : AppleWalletPassGenerator :=
      { team_id := pyOr team_id ""
        pass_type_id := pyOr pass_type_id ""
        organization_name := organization_name
        cert_path := cert_path
        key_path := key_path
        wwdr_cert_path := wwdr_cert_path }
    match create_event_pass generator (toString card_id) attendee_display_name
        event_name event_date card_url additional_fields with
    | .error _ => none
    | .ok _ =>
      if ¬ s3_upload_ok then none
      else some
        { type := "apple"
          url := base_domain ++ "/api/v1/passes/apple/" ++ toString card_id
          s3_key := some ("passes/apple/" ++ toString tenant_id ++ "/" ++ toString card_id ++ ".pkpass") }

/-! ## Google pass builder (`backend/app/utils/google_wallet.py`) -/

/-- `GoogleWalletPassGenerator` constructor state.  `credentials` is
`none` when no service-account file was given or loading it failed
(lines 52-63); otherwise it holds the loaded credential handle. -/
structure GoogleWalletPassGenerator where
  issuer_id : String
  service_account_email : String
  service_account_file : Option String
  credentials : Option String
deriving DecidableEq, Repr

/-- `GoogleWalletPassGenerator.generate_save_url`.  With credentials
present it signs a JWT referencing the pre-created object and returns
`https://pay.google.com/gp/v/save/<token>`; with **no credentials it
logs an error and returns the unsigned direct object-id URL** (lines
290-292), and an exception while signing falls into the `except` clause
which returns the same unsigned fallback URL (lines 307-310).  The
function never raises and never withholds a URL.  `sign_outcome` is the
environment-supplied result of `jwt.encode` (decoded to `str`). -/
def generate_save_url (g : GoogleWalletPassGenerator)
    (sign_outcome : Outcome String) (class_id object_id : String) : String :=
  let full_object_id := g.issuer_id ++ "." ++ object_id
  match g.credentials with
  | none => "https://pay.google.com/gp/v/save/" ++ full_object_id
  | some _ =>
    match sign_outcome with
    | .raises => "https://pay.google.com/gp/v/save/" ++ g.issuer_id ++ "." ++ object_id
    | .val token => "https://pay.google.com/gp/v/save/" ++ token

/-! ## Notification composer (`backend/app/utils/email.py`, `send_pass_email`) -/

/-- Uppercase hexadecimal digit, for percent-encoding. -/
def hexDigitChar (n : Nat) : Char :=
  if n < 10 then Char.ofNat (48 + n) else Char.ofNat (55 + n)

/-- Bytes `urllib.parse.quote` leaves as-is with its default
`safe='/'`: ASCII letters, digits, `_.-~` and `/`. -/
def quoteSafeByte (b : UInt8) : Bool :=
  (65 ≤ b.toNat && b.toNat ≤ 90) || (97 ≤ b.toNat && b.toNat ≤ 122) ||
  (48 ≤ b.toNat && b.toNat ≤ 57) ||
  b.toNat == 45 || b.toNat == 46 || b.toNat == 95 || b.toNat == 126 || b.toNat == 47

/-- Percent-encoding of one UTF-8 byte. -/
def quoteByte (b : UInt8) : String :=
  if quoteSafeByte b then String.singleton (Char.ofNat b.toNat)
  else "%" ++ String.singleton (hexDigitChar (b.toNat / 16)) ++
    String.singleton (hexDigitChar (b.toNat % 16))

/-- `urllib.parse.quote(url)` with the default `safe='/'`:
percent-encode the UTF-8 bytes of the string. -/
def pyQuote (s : String) : String :=
  ((s.data.flatMap String.utf8EncodeChar).map quoteByte).foldl (· ++ ·) ""

/-- Python `str.rstrip('/')`. -/
def rstripSlash (s : String) : String :=
  String.mk ((s.data.reverse.dropWhile (fun c => c = '/')).reverse)

/-- The `wrap_url` helper inside `send_pass_email` (lines 132-138):
when tracking identifiers are present, route the link through the
click-redirect endpoint carrying the URL-encoded target, the message id
and the link type; otherwise return the URL unchanged. -/
def wrap_url (tracking_enabled : Bool) (api_base_url message_id : String)
    (url link_type : String) : String :=
  if tracking_enabled then
    rstripSlash api_base_url ++ "/api/track/email/click?url=" ++ pyQuote url ++
      "&mid=" ++ message_id ++ "&type=" ++ link_type
  else url

/-- One iteration of the plain-text wallet loop (lines 140-147). -/
def walletTextFor (p : WalletPass) : String :=
  if p.type = "apple" then "\n\nAdd to Apple Wallet: " ++ p.url
  else if p.type = "google" then "\n\nAdd to Google Wallet: " ++ p.url
  else ""

/-- `wallet_text` accumulation over the pass list. -/
def wallet_text (ps : List WalletPass) : String :=
  ps.foldl (fun acc p => acc ++ walletTextFor p) ""

/-- `vcard_text` (lines 149-152). -/
def vcard_text (vcard_url : Option String) : String :=
  if pyTruthy vcard_url then "\n\nDownload contact (.vcf): " ++ pyOr vcard_url ""
  else ""

/-- The Apple wallet HTML button template (lines 176-182); the href is
the (wrapped) URL interpolated by the f-string. -/
def appleButtonHtml (href : String) : String :=
  "\n    <p style=\"margin-top: 20px;\">\n        <a href=\"" ++ href ++
  "\" style=\"background-color: #000000; color: white; padding: 12px 24px; text-decoration: none; border-radius: 8px; display: inline-block; font-weight: 600;\">\n            <img src=\"https://developer.apple.com/wallet/add-to-apple-wallet-logo.svg\" alt=\"Add to Apple Wallet\" style=\"height: 20px; vertical-align: middle; margin-right: 8px;\">\n            Add to Apple Wallet\n        </a>\n    </p>"

/-- The Google wallet HTML button template (lines 185-190). -/
def googleButtonHtml (href : String) : String :=
  "\n    <p style=\"margin-top: 20px;\">\n        <a href=\"" ++ href ++
  "\" style=\"background-color: #1a73e8; color: white; padding: 12px 24px; text-decoration: none; border-radius: 8px; display: inline-block; font-weight: 600; font-family: Arial, sans-serif;\">\n            📱 Add to Google Wallet\n        </a>\n    </p>"

/-- One iteration of the HTML wallet-button loop (lines 168-190): the
Apple URL is passed through `wrap_url` with link type `"wallet"`, the
Google URL is used directly (source comment: JWT-signed URLs cannot be
redirected). -/
def walletButtonFor (tracking_enabled : Bool) (api_base_url message_id : String)
    (p : WalletPass) : String :=
  if p.type = "apple" then
    appleButtonHtml (wrap_url tracking_enabled api_base_url message_id p.url "wallet")
  else if p.type = "google" then googleButtonHtml p.url
  else ""

/-- `wallet_buttons` accumulation over the pass list. -/
def wallet_buttons (tracking_enabled : Bool) (api_base_url message_id : String)
    (ps : List WalletPass) : String :=
  ps.foldl (fun acc p => acc ++ walletButtonFor tracking_enabled api_base_url message_id p) ""

/-- The vCard HTML button (lines 192-200), href used directly (source
comment: tracking disabled for reliability). -/
def vcard_button (vcard_url : Option String) (secondary_color : String) : String :=
  if pyTruthy vcard_url then
    "\n    <p style=\"margin-top: 20px;\">\n        <a href=\"" ++ pyOr vcard_url "" ++
    "\" style=\"background-color: " ++ secondary_color ++
    "; color: white; padding: 12px 24px; text-decoration: none; border-radius: 4px; display: inline-block; font-weight: 600;\">\n            📥 Download Contact Card (.vcf)\n        </a>\n    </p>"
  else ""

/-- Line 203 of `email.py`: `tracked_card_url = card_url` - the card
access link is used directly (source comment: tracking disabled for
reliability). -/
def tracked_card_url (card_url : String) : String := card_url

/-- The 1x1 open-tracking pixel (lines 205-209). -/
def tracking_pixel (tracking_enabled : Bool) (api_base_url message_id : String) : String :=
  if tracking_enabled then
    "<img src=\"" ++ rstripSlash api_base_url ++ "/api/track/email/open/" ++ message_id ++
    "\" width=\"1\" height=\"1\" style=\"display:none;\" alt=\"\" />"
  else ""

/-- The `brand_theme` dictionary keys `send_pass_email` reads. -/
structure BrandTheme where
  primary_color : Option String
  secondary_color : Option String
  text_color : Option String
  light_text_color : Option String
deriving DecidableEq, Repr

/-- The arguments of `send_pass_email` that shape the rendered bodies,
with `message_id` standing for the generated `uuid.uuid4()` and
`api_base_url` for `settings.API_BASE_URL`. -/
structure PassEmailParams where
  display_name : String
  event_name : String
  card_url : String
  qr_url : String
  wallet_passes : List WalletPass
  vcard_url : Option String
  brand_name : Option String
  brand_theme : Option BrandTheme
  card_id : Option Nat
  tenant_id : Option Nat
  api_base_url : String
  message_id : String
deriving DecidableEq, Repr

/-- The tracking condition `if card_id and tenant_id` (UUID arguments
are truthy exactly when not `None`). -/
def PassEmailParams.trackingEnabled (P : PassEmailParams) : Bool :=
  P.card_id.isSome && P.tenant_id.isSome

/-- The plain-text body (lines 154-166). -/
def body_text_of (P : PassEmailParams) : String :=
  let sender_name := pyOr P.brand_name "OutreachPass"
  "\nHello " ++ P.display_name ++ ",\n\nYour digital contact card for " ++
  P.event_name ++ " is ready!\n\nAccess your card: " ++ P.card_url ++ "\n" ++
  wallet_text P.wallet_passes ++ vcard_text P.vcard_url ++
  "\n\nShare your contact info instantly by showing your QR code or sharing your link.\n\nBest regards,\nThe " ++
  sender_name ++ " Team\n"

/-- The HTML body (lines 211-233), assembled exactly as the f-string
interpolates its pieces: the card link uses `tracked_card_url` (the raw
`card_url`), then the wallet buttons, the vCard button, the QR image via
the presigned `qr_url`, and the tracking pixel. -/
def body_html_of (P : PassEmailParams) : String :=
  let sender_name := pyOr P.brand_name "OutreachPass"
  let primary_color :=
    (P.brand_theme.bind (fun t => t.primary_color)).getD "#0066cc"
  let secondary_color :=
    (P.brand_theme.bind (fun t => t.secondary_color)).getD "#28a745"
  let text_color :=
    (P.brand_theme.bind (fun t => t.text_color)).getD "#333"
  let light_text_color :=
    (P.brand_theme.bind (fun t => t.light_text_color)).getD "#555"
  "\n<html>\n<head></head>\n<body style=\"font-family: Arial, sans-serif; max-width: 600px; margin: 0 auto; padding: 20px;\">\n    <h2 style=\"color: " ++
  text_color ++ ";\">Hello " ++ P.display_name ++
  ",</h2>\n    <p style=\"font-size: 16px; color: " ++ light_text_color ++
  ";\">Your digital contact card for <strong>" ++ P.event_name ++
  "</strong> is ready!</p>\n    <p style=\"margin-top: 20px;\">\n        <a href=\"" ++
  tracked_card_url P.card_url ++ "\" style=\"background-color: " ++ primary_color ++
  "; color: white; padding: 12px 24px; text-decoration: none; border-radius: 4px; display: inline-block; font-weight: 600;\">\n            Access Your Card\n        </a>\n    </p>\n    " ++
  wallet_buttons P.trackingEnabled P.api_base_url P.message_id P.wallet_passes ++
  vcard_button P.vcard_url secondary_color ++
  "\n    <div style=\"margin-top: 40px; text-align: center; padding: 20px; background-color: #f5f5f5; border-radius: 8px;\">\n        <h3 style=\"color: " ++
  text_color ++
  "; margin-bottom: 15px;\">Your Contact QR Code</h3>\n        <p style=\"font-size: 14px; color: #666; margin-bottom: 15px;\">Share this QR code so others can save your contact info instantly</p>\n        <img src=\"" ++
  P.qr_url ++
  "\" alt=\"Contact QR Code\" style=\"width: 250px; height: 250px; border: 2px solid #ddd; border-radius: 8px;\" />\n    </div>\n    <p style=\"margin-top: 30px; font-size: 14px; color: #777;\">Share your contact info instantly by showing your QR code or sharing your link.</p>\n    <p style=\"margin-top: 30px; color: #666; font-size: 14px;\">Best regards,<br/>The " ++
  sender_name ++ " Team</p>\n    " ++
  tracking_pixel P.trackingEnabled P.api_base_url P.message_id ++
  "\n</body>\n</html>\n"

/-- Substring relation on strings, via the underlying character lists. -/
def ContainsSub (hay needle : String) : Prop :=
  needle.data <:+: hay.data

/-- Bool test: does `hay` start with `needle`? -/
def startsList (needle hay : List Char) : Bool :=
  match needle, hay with
  | [], _ => true
  | _ :: _, [] => false
  | a :: as, b :: bs => a == b && startsList as bs

/-- Bool test: does `needle` occur as a contiguous sublist of `hay`? -/
def hasSubList (needle : List Char) : List Char → Bool
  | [] => needle.isEmpty
  | b :: bs => startsList needle (b :: bs) || hasSubList needle bs

lemma startsList_iff (needle : List Char) : ∀ hay : List Char,
    startsList needle hay = true ↔ ∃ t, needle ++ t = hay := by
  induction needle with
  | nil => intro hay; simp [startsList]
  | cons a as ih =>
    intro hay
    match hay with
    | [] => simp [startsList]
    | b :: bs =>
      simp only [startsList, Bool.and_eq_true, beq_iff_eq, ih bs, List.cons_append,
        List.cons.injEq]
      constructor
      · rintro ⟨rfl, t, rfl⟩
        exact ⟨t, rfl, rfl⟩
      · rintro ⟨t, rfl, rfl⟩
        exact ⟨rfl, t, rfl⟩

lemma hasSubList_iff (needle : List Char) : ∀ hay : List Char,
    hasSubList needle hay = true ↔ needle <:+: hay := by
  intro hay
  induction hay with
  | nil =>
    simp only [hasSubList, List.isEmpty_iff]
    constructor
    · rintro rfl
      exact ⟨[], [], rfl⟩
    · rintro ⟨s, t, h⟩
      cases s <;> cases needle <;> cases t <;> first | rfl | cases h
  | cons b bs ih =>
    simp only [hasSubList, Bool.or_eq_true, startsList_iff, ih]
    constructor
    · rintro (⟨t, h⟩ | ⟨s, t, rfl⟩)
      · exact ⟨[], t, by simpa using h⟩
      · exact ⟨b :: s, t, rfl⟩
    · rintro ⟨s, t, h⟩
      cases s with
      | nil => exact Or.inl ⟨t, by simpa using h⟩
      | cons x s =>
        injection h with h1 h2
        exact Or.inr ⟨s, t, h2⟩

instance (hay needle : String) : Decidable (ContainsSub hay needle) :=
  decidable_of_iff (hasSubList needle.data hay.data = true)
    (hasSubList_iff needle.data hay.data)

/-! ## Helper lemmas -/

@[simp]
lemma updateJob_attendees (db : DB) (jid : Nat) (f : Job → Job) :
    (db.updateJob jid f).attendees = db.attendees := rfl

@[simp]
lemma updateJob_cards (db : DB) (jid : Nat) (f : Job → Job) :
    (db.updateJob jid f).cards = db.cards := rfl

@[simp]
lemma updateJob_qrcodes (db : DB) (jid : Nat) (f : Job → Job) :
    (db.updateJob jid f).qrcodes = db.qrcodes := rfl

@[simp]
lemma findAttendee_updateJob (db : DB) (jid : Nat) (f : Job → Job) (aid : Nat) :
    (db.updateJob jid f).findAttendee aid = db.findAttendee aid := rfl

/-- A point update of a job row is visible through `findJob` as long as
the update does not change the primary key. -/
lemma find?_map_updateRow (xs : List Job) (jid : Nat) (f : Job → Job)
    (hf : ∀ j, (f j).job_id = j.job_id) :
    (xs.map (fun j => if j.job_id == jid then f j else j)).find?
        (fun j => j.job_id == jid)
      = (xs.find? (fun j => j.job_id == jid)).map f := by
  induction xs with
  | nil => rfl
  | cons x xs ih =>
    simp only [List.map_cons]
    by_cases hx : (x.job_id == jid) = true
    · have hfx : ((f x).job_id == jid) = true := by rw [hf x]; exact hx
      rw [if_pos hx]
      simp only [List.find?_cons, hfx, hx]
      rfl
    · have hx0 : (x.job_id == jid) = false := by
        cases h : (x.job_id == jid) with
        | true => exact absurd h hx
        | false => rfl
      rw [if_neg hx]
      simp only [List.find?_cons, hx0]
      exact ih

lemma findJob_updateJob (db : DB) (jid : Nat) (f : Job → Job)
    (hf : ∀ j, (f j).job_id = j.job_id) :
    (db.updateJob jid f).findJob jid = (db.findJob jid).map f :=
  find?_map_updateRow db.jobs jid f hf

/-- `create_card_for_attendee` succeeds whenever the attendee exists and
the artifact upload succeeds, whatever the wallet and email stages do. -/
lemma create_card_succeeds (env : CreateEnv) (db : DB) (aid : Nat) (a : Attendee)
    (h1 : db.findAttendee aid = some a) (h2 : env.s3_upload_ok = true) :
    ∃ db' resp, create_card_for_attendee env db aid = .ok (db', resp) := by
  unfold create_card_for_attendee
  rw [h1]
  simp only [h2, not_true_eq_false, if_false]
  exact ⟨_, _, rfl⟩

/-- With the artifact store down, `create_card_for_attendee` raises the
upload error (when the attendee exists). -/
lemma create_card_s3_error (env : CreateEnv) (db : DB) (aid : Nat) (a : Attendee)
    (h1 : db.findAttendee aid = some a) (h2 : env.s3_upload_ok = false) :
    create_card_for_attendee env db aid = .error .s3Upload := by
  unfold create_card_for_attendee
  rw [h1]
  simp [h2]

lemma containsSub_context (a n b : String) : ContainsSub (a ++ n ++ b) n :=
  ⟨a.data, b.data, by simp⟩

lemma containsSub_left (x h n : String) (hc : ContainsSub h n) :
    ContainsSub (x ++ h) n := by
  obtain ⟨s, t, hst⟩ := hc
  exact ⟨x.data ++ s, t, by simp [← hst]⟩

lemma containsSub_right (x h n : String) (hc : ContainsSub h n) :
    ContainsSub (h ++ x) n := by
  obtain ⟨s, t, hst⟩ := hc
  exact ⟨s, t ++ x.data, by simp [← hst]⟩

lemma containsSub_trans (h m n : String) (h1 : ContainsSub h m)
    (h2 : ContainsSub m n) : ContainsSub h n := by
  obtain ⟨s, t, hst⟩ := h1
  obtain ⟨u, v, huv⟩ := h2
  exact ⟨s ++ u, v ++ t, by rw [← hst, ← huv]; simp⟩

/-- The accumulator is preserved through the string-building folds of
`send_pass_email`. -/
lemma containsSub_foldl_acc {α : Type} (f : α → String) (ps : List α)
    (acc n : String) (hc : ContainsSub acc n) :
    ContainsSub (ps.foldl (fun a p => a ++ f p) acc) n := by
  induction ps generalizing acc with
  | nil => exact hc
  | cons x xs ih => exact ih (acc ++ f x) (containsSub_right _ _ _ hc)

/-- Each list element contributes its rendering, verbatim, to the
string-building folds of `send_pass_email`. -/
lemma containsSub_foldl {α : Type} (f : α → String) (ps : List α) (p : α)
    (hp : p ∈ ps) (acc : String) :
    ContainsSub (ps.foldl (fun a q => a ++ f q) acc) (f p) := by
  induction ps generalizing acc with
  | nil => cases hp
  | cons x xs ih =>
    rcases List.mem_cons.mp hp with h | h
    · subst h
      exact containsSub_foldl_acc f xs (acc ++ f p) (f p)
        ⟨acc.data, [], by simp⟩
    · exact ih h (acc ++ f x)

/-! ## Concrete fixtures used by witnesses and counterexamples -/

/-- An attendee who does not yet have a card. -/
def attendeeFresh : Attendee :=
  { attendee_id := 1, tenant_id := 7, event_id := some 2
    first_name := some "Ada", last_name := some "Lovelace"
    email := some "ada@example.com", phone := none
    org_name := some "Acme", title := some "Eng"
    linkedin_url := none, card_id := none }

/-- The same attendee after a card (id 10) has been issued. -/
def attendeeWithCard : Attendee := { attendeeFresh with card_id := some 10 }

def eventDevCon : Event :=
  { event_id := 2, name := "DevCon", brand_id := none, starts_at := 100 }

def cardTen : Card :=
  { card_id := 10, tenant_id := 7, owner_attendee_id := 1
    display_name := "Ada Lovelace", email := some "ada@example.com"
    phone := none, org_name := some "Acme", title := some "Eng"
    links_json := [], is_personal := false }

def jobPending : Job :=
  { job_id := 5, attendee_id := 1, tenant_id := 7, status := .pending
    card_id := none, qr_url := none, error_message := none
    retry_count := 0, max_retries := 3, created_at := 50
    started_at := none, completed_at := none }

/-- Environment in which every stage call succeeds or is benign. -/
def envHappy : CreateEnv :=
  { apple_wallet_enabled := false, google_wallet_enabled := true
    s3_upload_ok := true
    apple_stage := .val none
    google_stage := .val (some { type := "google", url := "https://pay.google.com/gp/v/save/tok", s3_key := none })
    email_stage := .val true }

/-- Environment in which the artifact upload fails and every
stage-isolated call raises. -/
def envAllFail : CreateEnv :=
  { apple_wallet_enabled := true, google_wallet_enabled := true
    s3_upload_ok := false
    apple_stage := .raises, google_stage := .raises, email_stage := .raises }

/-- Environment in which Card/QR issuance succeeds but the wallet
builders and the email send all raise. -/
def envStagesRaise : CreateEnv :=
  { envAllFail with s3_upload_ok := true }

/-- Database holding the fresh attendee and a pending job for them. -/
def dbFresh : DB :=
  { attendees := [attendeeFresh], events := [eventDevCon], brands := []
    cards := [], qrcodes := [], jobs := [jobPending]
    analytics := [], next_card_id := 10 }

/-- Database in which the attendee already has card 10. -/
def dbWithCard : DB :=
  { attendees := [attendeeWithCard], events := [eventDevCon], brands := []
    cards := [cardTen]
    qrcodes := [{ tenant_id := 7, event_id := some 2, card_id := 10
                  url := "https://outreachpass.base2ml.com/c/10"
                  s3_key_png := "qr/7/10.png" }]
    jobs := [jobPending], analytics := [], next_card_id := 11 }

/-- The shape of a successful `create_card_for_attendee` run: exactly
one card is appended, and it carries the derived display name, the
attendee as owner, and the id reported in the response. -/
lemma create_card_ok_cards (env : CreateEnv) (db : DB) (aid : Nat) (a : Attendee)
    (db' : DB) (resp : PassIssuanceResponse)
    (ha : db.findAttendee aid = some a)
    (hok : create_card_for_attendee env db aid = .ok (db', resp)) :
    ∃ c, db'.cards = db.cards ++ [c] ∧ c.card_id = resp.card_id ∧
      c.display_name = displayNameOf a.first_name a.last_name a.email ∧
      c.owner_attendee_id = a.attendee_id ∧ resp.card_id = db.next_card_id := by
  by_cases hs3 : env.s3_upload_ok = true
  · unfold create_card_for_attendee at hok
    rw [ha] at hok
    simp only [hs3, not_true_eq_false, if_false, Except.ok.injEq, Prod.mk.injEq] at hok
    obtain ⟨h1, h2⟩ := hok
    subst h1
    subst h2
    exact ⟨_, rfl, rfl, rfl, rfl, rfl⟩
  · have h0 : env.s3_upload_ok = false := by simpa using hs3
    rw [create_card_s3_error env db aid a ha h0] at hok
    exact Except.noConfusion hok

/-! ## Claim theorems -/

/-- Fixture: a Google generator with no loaded credentials. -/
def googleGenNoCreds : GoogleWalletPassGenerator :=
  { issuer_id := "3388000000012345"
    service_account_email := "svc@proj.iam.gserviceaccount.com"
    service_account_file := none, credentials := none }

/-- C5 counterexample: with no signing credentials loaded,
`generate_save_url` does not fail closed - it returns a save-style URL
(the unsigned direct object-id link), contradicting the claim that no
save link is returned. -/
theorem c5_counterexample :
    googleGenNoCreds.credentials = none ∧
    generate_save_url googleGenNoCreds Outcome.raises "event_pass_2" "card_11" =
      "https://pay.google.com/gp/v/save/3388000000012345.card_11" :=
  ⟨rfl, rfl⟩

/-- C5 (amended): when no signing credentials are loaded,
`generate_save_url` does not fail closed: it logs an error and returns
the unsigned direct object-id URL
`https://pay.google.com/gp/v/save/<issuer_id>.<object_id>`. -/
theorem c5_no_credentials_unsigned_url (g : GoogleWalletPassGenerator)
    (sign_outcome : Outcome String) (class_id object_id : String)
    (h : g.credentials = none) :
    generate_save_url g sign_outcome class_id object_id =
      "https://pay.google.com/gp/v/save/" ++ (g.issuer_id ++ "." ++ object_id) := by
  unfold generate_save_url
  rw [h]

/-- C5 witness: the amended theorem applied to the concrete
credential-less generator. -/
theorem c5_witness :
    generate_save_url googleGenNoCreds Outcome.raises "event_pass_2" "o1" =
      "https://pay.google.com/gp/v/save/" ++ ("3388000000012345" ++ "." ++ "o1") :=
  c5_no_credentials_unsigned_url googleGenNoCreds Outcome.raises "event_pass_2" "o1" rfl

/-- Fixture: an Apple generator with no signing credentials configured. -/
def appleGenUnsigned : AppleWalletPassGenerator :=
  { team_id := "A1B2C3D4E5", pass_type_id := "pass.com.outreachpass.event"
    organization_name := "OutreachPass"
    cert_path := none, key_path := none, wwdr_cert_path := none }

/-- C7 (code bug): with signing credentials unconfigured the builder is
supposed to fall back to `_create_unsigned_pass` and still emit a
structurally valid unsigned archive, but `create_event_pass` evaluates
the unbound name `Pass` in its very first statement (line 115) and
raises `NameError` before the unsigned branch (line 216) can run, so no
archive - signed or unsigned - is ever produced. -/
theorem c7_unsigned_path_unreachable :
    appleGenUnsigned.cert_path = none ∧ appleGenUnsigned.key_path = none ∧
    appleGenUnsigned.wwdr_cert_path = none ∧
    create_event_pass appleGenUnsigned "11" "Ada Lovelace" "DevCon" 100
      "https://outreachpass.base2ml.com/c/11" [] = .error (.nameError "Pass") :=
  ⟨rfl, rfl, rfl, rfl⟩

/-- C10: every call to `create_event_pass` raises
`NameError("Pass")` - the names `Pass`, `Barcode`, `BarcodeFormat` are
bound nowhere in `apple_wallet.py` - and consequently
`_generate_apple_wallet_pass` returns `None` for every input and
configuration, so no Apple pass is ever uploaded or recorded. -/
theorem c10_apple_builder_always_raises
    (g : AppleWalletPassGenerator) (serial attendee_name event_name : String)
    (event_date : Nat) (qr_code_url : String)
    (af : List (String × String × String))
    (team_id pass_type_id : Option String) (org : String)
    (cert_path key_path wwdr_cert_path : Option String)
    (fetch_images_raises s3_upload_ok : Bool) (cid tid : Nat)
    (display_name ev_name : String) (ev_date : Nat) (card_url base_domain : String)
    (af2 : List (String × String × String)) :
    create_event_pass g serial attendee_name event_name event_date qr_code_url af
        = .error (.nameError "Pass")
  ∧ generate_apple_wallet_pass team_id pass_type_id org cert_path key_path
      wwdr_cert_path fetch_images_raises s3_upload_ok cid tid display_name
      ev_name ev_date card_url base_domain af2 = none := by
  constructor
  · rfl
  · unfold generate_apple_wallet_pass
    split
    · rfl
    · split
      · rfl
      · rfl

/-- C9: the card's display name is the trimmed concatenation of first
and last name when that is non-empty, else the attendee's email when
present (non-null and non-empty, Python truthiness), else the
placeholder `"Attendee"`; the card created by a successful
`create_card_for_attendee` run carries exactly this value, and an
attendee with no name and email `a@b.com` gets display name `a@b.com`. -/
theorem c9_display_name (first_name last_name email : Option String)
    (env : CreateEnv) (db : DB) (aid : Nat) (a : Attendee)
    (ha : db.findAttendee aid = some a) (hs3 : env.s3_upload_ok = true) :
    ((pyStrip (pyOr first_name "" ++ " " ++ pyOr last_name "") ≠ "" →
        displayNameOf first_name last_name email =
          pyStrip (pyOr first_name "" ++ " " ++ pyOr last_name ""))
     ∧ (pyStrip (pyOr first_name "" ++ " " ++ pyOr last_name "") = "" →
          ∀ e, email = some e → e ≠ "" →
            displayNameOf first_name last_name email = e)
     ∧ (pyStrip (pyOr first_name "" ++ " " ++ pyOr last_name "") = "" →
          ¬ pyTruthy email →
            displayNameOf first_name last_name email = "Attendee"))
  ∧ (∃ db' resp, create_card_for_attendee env db aid = .ok (db', resp) ∧
       ∃ c, c ∈ db'.cards ∧ c.card_id = resp.card_id ∧
         c.display_name = displayNameOf a.first_name a.last_name a.email)
  ∧ displayNameOf none none (some "a@b.com") = "a@b.com" := by
  refine ⟨⟨?_, ?_, ?_⟩, ?_, by decide⟩
  · intro h
    unfold displayNameOf
    rw [if_neg h]
  · intro h e he hne
    unfold displayNameOf
    rw [if_pos h, he]
    show (if e = "" then "Attendee" else e) = e
    rw [if_neg hne]
  · intro h hnt
    unfold displayNameOf
    rw [if_pos h]
    match email with
    | none => rfl
    | some s =>
      have hs : s = "" := by simpa [pyTruthy] using hnt
      subst hs
      rfl
  · obtain ⟨db', resp, hok⟩ := create_card_succeeds env db aid a ha hs3
    obtain ⟨c, hcards, hid, hdn, _, _⟩ := create_card_ok_cards env db aid a db' resp ha hok
    exact ⟨db', resp, hok, c, by rw [hcards]; simp, hid, hdn⟩

/-- C9 witness: the theorem applied to the fresh fixture attendee. -/
theorem c9_witness :
    (∃ db' resp, create_card_for_attendee envHappy dbFresh 1 = .ok (db', resp) ∧
       ∃ c, c ∈ db'.cards ∧ c.card_id = resp.card_id ∧
         c.display_name = displayNameOf attendeeFresh.first_name
           attendeeFresh.last_name attendeeFresh.email)
  ∧ displayNameOf none none (some "a@b.com") = "a@b.com" :=
  ⟨(c9_display_name none none (some "a@b.com") envHappy dbFresh 1 attendeeFresh
      (by decide) rfl).2.1,
   (c9_display_name none none (some "a@b.com") envHappy dbFresh 1 attendeeFresh
      (by decide) rfl).2.2⟩

/-- C2: for every attendee for which Card and QRCode creation (the
artifact upload included) succeeds, `create_card_for_attendee` returns a
successful `PassIssuanceResponse` - whatever the Apple builder, the
Google builder, or the email send do, raising included - and the
polling worker's job reaches `completed`.  No exception from those
stages escapes `create_card_for_attendee` (the function is total and
returns `.ok` here for every stage environment). -/
theorem c2_wallet_email_failures_isolated
    (env : CreateEnv) (db : DB) (aid : Nat) (a : Attendee)
    (ha : db.findAttendee aid = some a) (hs3 : env.s3_upload_ok = true) :
    (∃ db' resp, create_card_for_attendee env db aid = .ok (db', resp))
  ∧ ∀ (job : Job) (now : Nat), job.attendee_id = aid →
      (process_job env job db now).job.status = .completed ∧
      (process_job env job db now).ok = true := by
  refine ⟨create_card_succeeds env db aid a ha hs3, ?_⟩
  intro job now hjob
  obtain ⟨db', resp, hok⟩ := create_card_succeeds env db aid a ha hs3
  unfold process_job
  rw [hjob, ha, hok]
  exact ⟨rfl, rfl⟩

/-- C2 witness: with Card/QR succeeding and all three isolated stages
raising, the service still returns `.ok` and the job completes. -/
theorem c2_witness :
    (∃ db' resp, create_card_for_attendee envStagesRaise dbFresh 1 = .ok (db', resp))
  ∧ (process_job envStagesRaise jobPending dbFresh 60).job.status = .completed :=
  ⟨(c2_wallet_email_failures_isolated envStagesRaise dbFresh 1 attendeeFresh
      (by decide) rfl).1,
   ((c2_wallet_email_failures_isolated envStagesRaise dbFresh 1 attendeeFresh
      (by decide) rfl).2 jobPending 60 rfl).1⟩

/-- C1 (amended): the idempotency gate exists only in the SQS worker:
when the job's attendee already has a card, `process_pass_generation_job`
marks the job `completed` immediately with the existing card id and
creates no Card and no QRCode.  The polling worker `process_job` has no
such gate and issues a duplicate card on replay (see the
counterexample). -/
theorem c1_lambda_idempotency_gate (env : CreateEnv) (db : DB) (jid : Nat)
    (job : Job) (a : Attendee) (c : Nat)
    (hj : db.findJob jid = some job) (hnc : job.status ≠ .completed)
    (ha : db.findAttendee job.attendee_id = some a) (hc : a.card_id = some c) :
    (process_pass_generation_job env db jid).1.cards = db.cards
  ∧ (process_pass_generation_job env db jid).1.qrcodes = db.qrcodes
  ∧ (process_pass_generation_job env db jid).1.findJob jid =
      some { job with status := .completed, started_at := some job.created_at,
                      card_id := some c, completed_at := some job.created_at }
  ∧ (process_pass_generation_job env db jid).2 = .success "Pass already exists" := by
  have hres : process_pass_generation_job env db jid =
      ((db.updateJob jid
          (fun j => { j with status := .processing, started_at := some j.created_at })).updateJob jid
          (fun j => { j with status := .completed, card_id := some c,
                             completed_at := some j.created_at }),
       .success "Pass already exists") := by
    simp only [process_pass_generation_job, hj, if_neg hnc, findAttendee_updateJob, ha, hc]
  rw [hres]
  refine ⟨rfl, rfl, ?_, rfl⟩
  rw [findJob_updateJob, findJob_updateJob, hj]
  · rfl
  · intro j; rfl
  · intro j; rfl

/-- C1 witness: the gate theorem applied to the fixture database in
which attendee 1 already has card 10. -/
theorem c1_witness :
    (process_pass_generation_job envHappy dbWithCard 5).1.cards = dbWithCard.cards
  ∧ (process_pass_generation_job envHappy dbWithCard 5).1.qrcodes = dbWithCard.qrcodes
  ∧ (process_pass_generation_job envHappy dbWithCard 5).1.findJob 5 =
      some { jobPending with status := .completed, started_at := some jobPending.created_at,
                             card_id := some 10, completed_at := some jobPending.created_at }
  ∧ (process_pass_generation_job envHappy dbWithCard 5).2 = .success "Pass already exists" :=
  c1_lambda_idempotency_gate envHappy dbWithCard 5 jobPending attendeeWithCard 10
    (by decide) (by decide) (by decide) rfl

/-- C1 counterexample: the polling worker processes a job for attendee
1, who already has card 10, and - contrary to the claim - creates a
second Card (id 11) and a second QRCode instead of completing with the
existing card only. -/
theorem c1_counterexample :
    attendeeWithCard.card_id = some 10
  ∧ dbWithCard.cards.length = 1
  ∧ (process_job envHappy jobPending dbWithCard 60).db.cards.length = 2
  ∧ (process_job envHappy jobPending dbWithCard 60).job.status = .completed
  ∧ (process_job envHappy jobPending dbWithCard 60).job.card_id = some 11
  ∧ (process_job envHappy jobPending dbWithCard 60).db.qrcodes.length = 2 :=
  ⟨rfl, rfl, rfl, rfl, rfl, rfl⟩

/-- The job record resulting from one polling-worker processing attempt. -/
def stepJob (env : CreateEnv) (db : DB) (now : Nat) (j : Job) : Job :=
  (process_job env j db now).job

/-- Failure shape of `process_job`: when the attendee exists but
`create_card_for_attendee` raises, the handler increments `retry_count`
and either re-queues or permanently fails the job. -/
lemma process_job_on_error (env : CreateEnv) (db : DB) (now : Nat) (j : Job)
    (e : CardErr) (a : Attendee)
    (ha : db.findAttendee j.attendee_id = some a)
    (he : create_card_for_attendee env db j.attendee_id = .error e) :
    process_job env j db now =
      if j.retry_count + 1 ≥ j.max_retries then
        { job := { j with status := .failed, started_at := some now,
                          retry_count := j.retry_count + 1,
                          error_message := some e.message, completed_at := some now }
          db := db, ok := false }
      else
        { job := { j with status := .pending, started_at := none,
                          retry_count := j.retry_count + 1,
                          error_message := some e.message }
          db := db, ok := false } := by
  simp only [process_job, ha, he]

/-- C3 (amended): in the polling worker, a Card/QR issuance failure
increments `retry_count`, re-queues the job as `pending` with the start
timestamp cleared while the incremented count is below `max_retries`,
and otherwise marks it `failed`; with `max_retries = 3` and the Card/QR
step failing every time (artifact store down), the first two attempts
re-queue and the 3rd attempt's failure yields `failed` with
`retry_count = 3` - never a 4th pending cycle.  The SQS worker instead
marks a failing job `failed` immediately without touching `retry_count`
(see the counterexample). -/
theorem c3_polling_worker_retry (env : CreateEnv) (db : DB) (job : Job)
    (now : Nat) (e : CardErr) (a : Attendee)
    (ha : db.findAttendee job.attendee_id = some a)
    (he : create_card_for_attendee env db job.attendee_id = .error e) :
    ((process_job env job db now).job.retry_count = job.retry_count + 1
   ∧ (process_job env job db now).job.error_message = some e.message
   ∧ (process_job env job db now).ok = false
   ∧ (job.retry_count + 1 < job.max_retries →
        (process_job env job db now).job.status = .pending ∧
        (process_job env job db now).job.started_at = none)
   ∧ (job.max_retries ≤ job.retry_count + 1 →
        (process_job env job db now).job.status = .failed))
  ∧ (env.s3_upload_ok = false → job.retry_count = 0 → job.max_retries = 3 →
       (stepJob env db now job).status = .pending
     ∧ (stepJob env db now (stepJob env db now job)).status = .pending
     ∧ (stepJob env db now (stepJob env db now (stepJob env db now job))).status = .failed
     ∧ (stepJob env db now (stepJob env db now (stepJob env db now job))).retry_count = 3) := by
  constructor
  · rw [process_job_on_error env db now job e a ha he]
    by_cases hge : job.retry_count + 1 ≥ job.max_retries
    · rw [if_pos hge]
      exact ⟨rfl, rfl, rfl, fun hlt => absurd hge (by omega), fun _ => rfl⟩
    · rw [if_neg hge]
      exact ⟨rfl, rfl, rfl, fun _ => ⟨rfl, rfl⟩, fun hle => absurd hle (by omega)⟩
  · intro hs3 hr hm
    have hfail1 : create_card_for_attendee env db job.attendee_id = .error .s3Upload :=
      create_card_s3_error env db job.attendee_id a ha hs3
    have key : ∀ j : Job, j.attendee_id = job.attendee_id →
        stepJob env db now j =
          if j.retry_count + 1 ≥ j.max_retries then
            { j with status := .failed, started_at := some now,
                     retry_count := j.retry_count + 1,
                     error_message := some CardErr.s3Upload.message,
                     completed_at := some now }
          else
            { j with status := .pending, started_at := none,
                     retry_count := j.retry_count + 1,
                     error_message := some CardErr.s3Upload.message } := by
      intro j hid
      unfold stepJob
      rw [process_job_on_error env db now j .s3Upload a (by rw [hid]; exact ha)
        (by rw [hid]; exact hfail1)]
      by_cases hge : j.retry_count + 1 ≥ j.max_retries
      · rw [if_pos hge, if_pos hge]
      · rw [if_neg hge, if_neg hge]
    have key1 := key job rfl
    rw [if_neg (by omega)] at key1
    have key2 := key { job with status := .pending, started_at := none,
                                retry_count := job.retry_count + 1,
                                error_message := some CardErr.s3Upload.message } rfl
    simp only [] at key2
    rw [if_neg (by omega)] at key2
    have key3 := key { job with status := .pending, started_at := none,
                                retry_count := job.retry_count + 1 + 1,
                                error_message := some CardErr.s3Upload.message } rfl
    simp only [] at key3
    rw [if_pos (by omega)] at key3
    rw [key1, key2, key3]
    refine ⟨rfl, rfl, rfl, ?_⟩
    show job.retry_count + 1 + 1 + 1 = 3
    omega

/-- C3 witness: the amended theorem at the fixture job (retry 0 of 3)
with the artifact store down. -/
theorem c3_witness :
    ((process_job envAllFail jobPending dbFresh 60).job.retry_count = jobPending.retry_count + 1
   ∧ (process_job envAllFail jobPending dbFresh 60).job.error_message = some CardErr.s3Upload.message
   ∧ (process_job envAllFail jobPending dbFresh 60).ok = false
   ∧ (jobPending.retry_count + 1 < jobPending.max_retries →
        (process_job envAllFail jobPending dbFresh 60).job.status = .pending ∧
        (process_job envAllFail jobPending dbFresh 60).job.started_at = none)
   ∧ (jobPending.max_retries ≤ jobPending.retry_count + 1 →
        (process_job envAllFail jobPending dbFresh 60).job.status = .failed))
  ∧ (envAllFail.s3_upload_ok = false → jobPending.retry_count = 0 → jobPending.max_retries = 3 →
       (stepJob envAllFail dbFresh 60 jobPending).status = .pending
     ∧ (stepJob envAllFail dbFresh 60 (stepJob envAllFail dbFresh 60 jobPending)).status = .pending
     ∧ (stepJob envAllFail dbFresh 60 (stepJob envAllFail dbFresh 60 (stepJob envAllFail dbFresh 60 jobPending))).status = .failed
     ∧ (stepJob envAllFail dbFresh 60 (stepJob envAllFail dbFresh 60 (stepJob envAllFail dbFresh 60 jobPending))).retry_count = 3) :=
  c3_polling_worker_retry envAllFail dbFresh jobPending 60 .s3Upload attendeeFresh
    (by decide) (create_card_s3_error envAllFail dbFresh 1 attendeeFresh (by decide) rfl)

/-- C3 counterexample: the SQS worker, on the very first Card/QR
failure of a fresh job (`retry_count = 0`, `max_retries = 3`), marks the
job `failed` immediately and leaves `retry_count` at 0, where the claim
requires incrementing `retry_count` to 1 and returning the job to
`pending`. -/
theorem c3_counterexample :
    jobPending.retry_count = 0 ∧ jobPending.max_retries = 3
  ∧ (process_pass_generation_job envAllFail dbFresh 5).1.findJob 5 =
      some { jobPending with status := .failed, started_at := some 50,
                             error_message := some "S3 upload failed" } :=
  ⟨rfl, rfl, rfl⟩

/-- Fixture: the pending job already in the `failed` terminal state. -/
def jobFailed : Job :=
  { jobPending with status := .failed, error_message := some "boom" }

/-- Fixture: the card-bearing database, but whose only job is `failed`. -/
def dbFailedJob : DB := { dbWithCard with jobs := [jobFailed] }

/-- C4 (amended): a `completed` job is never reprocessed - the SQS
worker returns immediately leaving the database untouched - and the
polling worker's dequeue only ever returns `pending` jobs, so neither
`completed` nor `failed` jobs are picked up by it.  The SQS worker
however re-enters a `failed` job delivered to it again (see the
counterexample). -/
theorem c4_terminal_states (env : CreateEnv) (db : DB) (jid : Nat)
    (job : Job) (limit : Nat)
    (hj : db.findJob jid = some job) (hc : job.status = .completed) :
    process_pass_generation_job env db jid = (db, .success "Job already completed")
  ∧ ∀ j ∈ get_pending_jobs db limit, j.status = .pending := by
  constructor
  · simp only [process_pass_generation_job, hj, if_pos hc]
  · intro j hjm
    have h1 : j ∈ (db.jobs.filter (fun x => x.status == .pending)).mergeSort
        (fun a b => a.created_at ≤ b.created_at) :=
      List.mem_of_mem_take hjm
    have h2 : j ∈ db.jobs.filter (fun x => x.status == .pending) :=
      List.mem_mergeSort.mp h1
    have h3 := List.of_mem_filter h2
    exact of_decide_eq_true h3

/-- C4 witness: the amended theorem at a database whose job 5 is
already `completed`. -/
theorem c4_witness :
    process_pass_generation_job envHappy
        { dbWithCard with jobs := [{ jobPending with status := .completed }] } 5 =
      ({ dbWithCard with jobs := [{ jobPending with status := .completed }] },
       .success "Job already completed")
  ∧ ∀ j ∈ get_pending_jobs
        { dbWithCard with jobs := [{ jobPending with status := .completed }] } 20,
      j.status = .pending :=
  c4_terminal_states envHappy
    { dbWithCard with jobs := [{ jobPending with status := .completed }] } 5
    { jobPending with status := .completed } 20 (by decide) rfl

/-- C4 counterexample: a job in the terminal state `failed`, redelivered
to the SQS worker, is reprocessed: the worker flips it back through
`processing` and (the attendee having a card) overwrites the terminal
state with `completed` - a terminal job's status does change. -/
theorem c4_counterexample :
    jobFailed.status = .failed
  ∧ (process_pass_generation_job envHappy dbFailedJob 5).1.findJob 5 =
      some { jobFailed with status := .completed, started_at := some 50,
                            card_id := some 10, completed_at := some 50 } :=
  ⟨rfl, rfl⟩

lemma containsSub_tail (h x : String) : ContainsSub (h ++ x) x :=
  ⟨h.data, [], by simp⟩

lemma containsSub_mid3 (x pre lit c post : String) :
    ContainsSub (x ++ (pre ++ lit) ++ c ++ post) ((lit ++ c) ++ post) :=
  ⟨(x ++ pre).data, [], by simp [List.append_assoc]⟩

/-- C6: for every Google wallet pass handed to the notification
composer, the save link embedded in the outgoing email is byte-identical
to the URL produced by the Google pass builder, in both the plain-text
body and the HTML button: the rendered button is `googleButtonHtml
p.url` - the raw URL as the href - for every tracking configuration,
so the link is never passed through the `wrap_url` click-redirect. -/
theorem c6_google_save_link_untouched (P : PassEmailParams) (p : WalletPass)
    (hp : p ∈ P.wallet_passes) (hg : p.type = "google") :
    ContainsSub (body_text_of P) ("\n\nAdd to Google Wallet: " ++ p.url)
  ∧ ContainsSub (body_html_of P) (googleButtonHtml p.url)
  ∧ (∀ tracking_enabled api_base_url message_id,
      walletButtonFor tracking_enabled api_base_url message_id p = googleButtonHtml p.url) := by
  have hne : ¬ p.type = "apple" := by rw [hg]; decide
  have hwt : walletTextFor p = "\n\nAdd to Google Wallet: " ++ p.url := by
    unfold walletTextFor
    rw [if_neg hne, if_pos hg]
  have hbtn : ∀ t b m, walletButtonFor t b m p = googleButtonHtml p.url := by
    intro t b m
    unfold walletButtonFor
    rw [if_neg hne, if_pos hg]
  refine ⟨?_, ?_, hbtn⟩
  · have h0 := containsSub_foldl walletTextFor P.wallet_passes p hp ""
    rw [hwt] at h0
    simp only [body_text_of]
    apply containsSub_right
    apply containsSub_right
    apply containsSub_right
    apply containsSub_right
    apply containsSub_left
    exact h0
  · have h0 := containsSub_foldl
      (walletButtonFor P.trackingEnabled P.api_base_url P.message_id)
      P.wallet_passes p hp ""
    rw [hbtn P.trackingEnabled P.api_base_url P.message_id] at h0
    simp only [body_html_of]
    apply containsSub_right
    apply containsSub_right
    apply containsSub_right
    apply containsSub_right
    apply containsSub_right
    apply containsSub_right
    apply containsSub_right
    apply containsSub_right
    apply containsSub_right
    apply containsSub_right
    apply containsSub_left
    exact h0

/-- Fixture: a Google wallet pass as the builder returns it. -/
def googlePassFx : WalletPass :=
  { type := "google", url := "https://pay.google.com/gp/v/save/tok123", s3_key := none }

/-- Fixture: email parameters with tracking identifiers present and one
Google pass. -/
def emailParamsG : PassEmailParams :=
  { display_name := "Ada Lovelace", event_name := "DevCon"
    card_url := "https://outreachpass.base2ml.com/c/11"
    qr_url := "https://s3.example.com/qr/7/11.png"
    wallet_passes := [googlePassFx]
    vcard_url := some "https://outreachpass.base2ml.com/c/11/vcard"
    brand_name := none, brand_theme := none
    card_id := some 11, tenant_id := some 7
    api_base_url := "https://api.example.com", message_id := "mid-123" }

/-- C6 witness: the theorem at the concrete fixture email. -/
theorem c6_witness :
    ContainsSub (body_text_of emailParamsG) ("\n\nAdd to Google Wallet: " ++ googlePassFx.url)
  ∧ ContainsSub (body_html_of emailParamsG) (googleButtonHtml googlePassFx.url)
  ∧ (∀ tracking_enabled api_base_url message_id,
      walletButtonFor tracking_enabled api_base_url message_id googlePassFx =
        googleButtonHtml googlePassFx.url) :=
  c6_google_save_link_untouched emailParamsG googlePassFx (by decide) rfl

/-- C8 (amended): with tracking identifiers present, only the Apple
wallet download link is wrapped: its href is the click-redirect endpoint
carrying the URL-encoded target, the message id and `type=wallet`.  The
card access link and the vCard link are emitted with the target URL
directly as the href (`tracked_card_url` is the identity and
`vcard_button` embeds the raw URL; the source comments say tracking is
disabled for them for reliability). -/
theorem c8_only_apple_wrapped (P : PassEmailParams) (p : WalletPass)
    (htr : P.trackingEnabled = true) (hp : p ∈ P.wallet_passes)
    (hap : p.type = "apple") :
    ContainsSub (body_html_of P)
      (appleButtonHtml (rstripSlash P.api_base_url ++ "/api/track/email/click?url=" ++
        pyQuote p.url ++ "&mid=" ++ P.message_id ++ "&type=" ++ "wallet"))
  ∧ ContainsSub (body_html_of P)
      ("<a href=\"" ++ P.card_url ++ "\" style=\"background-color: ")
  ∧ tracked_card_url P.card_url = P.card_url
  ∧ ContainsSub (body_html_of P)
      (vcard_button P.vcard_url
        ((P.brand_theme.bind (fun t => t.secondary_color)).getD "#28a745")) := by
  have hbtn : walletButtonFor P.trackingEnabled P.api_base_url P.message_id p
      = appleButtonHtml (rstripSlash P.api_base_url ++ "/api/track/email/click?url=" ++
          pyQuote p.url ++ "&mid=" ++ P.message_id ++ "&type=" ++ "wallet") := by
    unfold walletButtonFor wrap_url
    rw [if_pos hap, htr]
    simp
  refine ⟨?_, ?_, rfl, ?_⟩
  · have h0 := containsSub_foldl
      (walletButtonFor P.trackingEnabled P.api_base_url P.message_id)
      P.wallet_passes p hp ""
    rw [hbtn] at h0
    simp only [body_html_of]
    apply containsSub_right
    apply containsSub_right
    apply containsSub_right
    apply containsSub_right
    apply containsSub_right
    apply containsSub_right
    apply containsSub_right
    apply containsSub_right
    apply containsSub_right
    apply containsSub_right
    apply containsSub_left
    exact h0
  · have hsplit :
        ("</strong> is ready!</p>\n    <p style=\"margin-top: 20px;\">\n        <a href=\"" : String)
          = "</strong> is ready!</p>\n    <p style=\"margin-top: 20px;\">\n        " ++ "<a href=\"" := by
      decide
    simp only [body_html_of, tracked_card_url]
    apply containsSub_right
    apply containsSub_right
    apply containsSub_right
    apply containsSub_right
    apply containsSub_right
    apply containsSub_right
    apply containsSub_right
    apply containsSub_right
    apply containsSub_right
    apply containsSub_right
    apply containsSub_right
    apply containsSub_right
    apply containsSub_right
    rw [hsplit]
    exact containsSub_mid3 _ _ _ _ _
  · simp only [body_html_of]
    apply containsSub_right
    apply containsSub_right
    apply containsSub_right
    apply containsSub_right
    apply containsSub_right
    apply containsSub_right
    apply containsSub_right
    apply containsSub_right
    apply containsSub_right
    apply containsSub_tail

/-- Fixture: an Apple wallet pass locator. -/
def applePassFx : WalletPass :=
  { type := "apple", url := "https://outreachpass.base2ml.com/api/v1/passes/apple/11"
    s3_key := some "passes/apple/7/11.pkpass" }

/-- Fixture: email parameters with tracking identifiers present and one
Apple pass. -/
def emailParamsA : PassEmailParams := { emailParamsG with wallet_passes := [applePassFx] }

/-- C8 witness: the amended theorem at the concrete fixture email. -/
theorem c8_witness :
    ContainsSub (body_html_of emailParamsA)
      (appleButtonHtml (rstripSlash emailParamsA.api_base_url ++ "/api/track/email/click?url=" ++
        pyQuote applePassFx.url ++ "&mid=" ++ emailParamsA.message_id ++ "&type=" ++ "wallet"))
  ∧ ContainsSub (body_html_of emailParamsA)
      ("<a href=\"" ++ emailParamsA.card_url ++ "\" style=\"background-color: ")
  ∧ tracked_card_url emailParamsA.card_url = emailParamsA.card_url
  ∧ ContainsSub (body_html_of emailParamsA)
      (vcard_button emailParamsA.vcard_url
        ((emailParamsA.brand_theme.bind (fun t => t.secondary_color)).getD "#28a745")) :=
  c8_only_apple_wrapped emailParamsA applePassFx rfl (by decide) rfl

/-- Fixture: email parameters with tracking identifiers present and no
wallet passes at all. -/
def emailParamsNoWallet : PassEmailParams := { emailParamsG with wallet_passes := [] }

/-- C8 counterexample: with tracking identifiers present, the rendered
HTML body contains the raw card URL and the raw vCard URL as hrefs and
does not contain the click-redirect endpoint at all - the card access
link and the vCard link are not wrapped, contrary to the claim. -/
theorem c8_counterexample :
    emailParamsNoWallet.trackingEnabled = true
  ∧ ContainsSub (body_html_of emailParamsNoWallet)
      ("<a href=\"https://outreachpass.base2ml.com/c/11\" style=\"background-color: ")
  ∧ ContainsSub (body_html_of emailParamsNoWallet)
      ("<a href=\"https://outreachpass.base2ml.com/c/11/vcard\" style=\"background-color: ")
  ∧ ¬ ContainsSub (body_html_of emailParamsNoWallet) "/api/track/email/click" := by
  refine ⟨rfl, by decide, by decide, by decide⟩

end OutreachPass
